import Mathlib

/-!
Shallow embedding of the job-tracking / SSE subsystem of the
`postgresAgentFrontend` repository (class `SSEService`).

The embedding follows the source closely:

* `SSEService` holds the two registries of the class
  (`activeConnections : Map jobId -> EventSource`,
  `eventHandlers : Map jobId -> handlers`); an `EventSource` is modelled
  by a numeric channel id, with `nextChannelId` supplying a fresh id for
  each `new EventSource(...)`.
* the credential store (`localStorage` user data, as read by
  `getAuthToken`) is modelled as an `Option String` holding the access
  token, `none` meaning absent or unparsable.
* side effects of the code (closing a channel, invoking a caller
  callback, clearing the credential, showing the expiry notification,
  scheduling the redirect) are recorded in an `Effect` trace, in the
  order the statements execute in the source.
* the event listeners installed by `connectToJob` are modelled by
  `dispatchEvent`: an event arrives addressed to a channel id and the
  `jobId`/`handlers` its listener closures captured; a closed
  `EventSource` dispatches nothing, which the model renders as the guard
  that the registry still maps `jobId` to that channel id (the code
  closes a channel exactly when it removes it from the registry).
-/

/-- JSON values as far as the service inspects them: `JSON.parse` of an
event's data. The classifier reads only the `error` and `message` string
fields of objects; `repr` carries the rest of the payload opaquely so
distinct payloads stay distinct. `nonObject` covers parses that are not
objects (strings, numbers, booleans, `null`). -/
inductive JsValue where
  | nonObject (repr : String)
  | obj (error : Option String) (message : Option String) (repr : String)
deriving DecidableEq, Repr

/-- The handler object passed to `connectToJob`; each field records
whether the corresponding optional callback is present. -/
structure Handlers where
  onConnect : Bool
  onProgress : Bool
  onComplete : Bool
  onError : Bool
deriving DecidableEq, Repr

/-- Payload shapes the code passes to an `onError` callback. -/
inductive ErrorPayload where
  /-- application-level `error` event: the parsed event data itself. -/
  | eventData (data : JsValue)
  /-- transport failure: the literal object built in `eventSource.onerror`. -/
  | connectionError (jobId : String) (error : String) (readyState : Nat)
  /-- `connectToJob` catch block: the literal object built there. -/
  | connectionFailed (jobId : String) (error : String)
deriving DecidableEq, Repr

/-- Observable side effects of the service, in execution order. -/
inductive Effect where
  | channelOpened (ch : Nat) (jobId : String)
  | channelClosed (ch : Nat)
  | onConnectCalled (jobId : String) (data : JsValue)
  | onProgressCalled (jobId : String) (data : JsValue)
  | onCompleteCalled (jobId : String) (data : JsValue)
  | onErrorCalled (payload : ErrorPayload)
  /-- entry into `handleTokenExpiration` (the Expiry Coordinator). -/
  | expiryInvoked
  /-- `localStorage.removeItem(USER_DATA)`. -/
  | credentialCleared
  /-- `showTokenExpiredNotification()`. -/
  | notificationShown
  /-- the `setTimeout` that assigns `window.location.href`. -/
  | redirectScheduled (target : String)
deriving DecidableEq, Repr

/-! ### Association-list model of the two JS `Map`s -/

/-- `Map.get`: value of the first (in a real `Map`, only) entry for `k`. -/
def mapGet {α : Type} (m : List (String × α)) (k : String) : Option α :=
  match m with
  | [] => none
  | p :: rest => if p.1 = k then some p.2 else mapGet rest k

/-- `Map.set`: replace the entry for `k` in place, else append. -/
def mapSet {α : Type} (m : List (String × α)) (k : String) (v : α) :
    List (String × α) :=
  match m with
  | [] => [(k, v)]
  | p :: rest => if p.1 = k then (k, v) :: rest else p :: mapSet rest k v

/-- `Map.delete`: drop every entry for `k`. -/
def mapDelete {α : Type} (m : List (String × α)) (k : String) :
    List (String × α) :=
  match m with
  | [] => []
  | p :: rest =>
      if p.1 = k then mapDelete rest k else p :: mapDelete rest k

/-- The key list of a map, in insertion order. -/
def keysOf {α : Type} (m : List (String × α)) : List String :=
  m.map Prod.fst

/-- Number of entries stored under `k`. -/
def countKey {α : Type} (m : List (String × α)) (k : String) : Nat :=
  match m with
  | [] => 0
  | p :: rest => (if p.1 = k then 1 else 0) + countKey rest k

/-! ### The service state -/

/-- State of one `SSEService` instance: the two registries and the next
fresh channel id (standing for `new EventSource`). -/
structure SSEService where
  activeConnections : List (String × Nat)
  eventHandlers : List (String × Handlers)
  nextChannelId : Nat
deriving DecidableEq, Repr

/-- The constructor: both registries start empty. -/
def SSEService.init : SSEService :=
  { activeConnections := [], eventHandlers := [], nextChannelId := 0 }

/-- `EventSource.CONNECTING`. -/
def EventSource.CONNECTING : Nat := 0

/-- `EventSource.OPEN`. -/
def EventSource.OPEN : Nat := 1

/-- `EventSource.CLOSED`. -/
def EventSource.CLOSED : Nat := 2

/-- `getAuthToken`: the token held by the credential store, if any. -/
def getAuthToken (store : Option String) : Option String := store

/-- `isAuthenticated`: `getAuthToken() !== null`. -/
def isAuthenticated (store : Option String) : Bool :=
  (getAuthToken store).isSome

/-! ### The expiry classifier -/

/-- ASCII lowercasing of a string, as `toLowerCase` acts on the
identifiers the classifier looks for. -/
def jsToLowerCase (s : String) : String :=
  ⟨s.data.map Char.toLower⟩

/-- Does `hay` have `sub` as a prefix of one of its suffixes? -/
def strIncludesAux (sub : List Char) : List Char → Bool
  | [] => sub.isEmpty
  | c :: rest => sub.isPrefixOf (c :: rest) || strIncludesAux sub rest

/-- JS `String.prototype.includes`. -/
def strIncludes (s sub : String) : Bool :=
  strIncludesAux sub.data s.data

/-- JS `a || b` on an optional string field: a present, non-empty string
is truthy; `undefined` and `""` fall through to the default. -/
def jsStringOr (v : Option String) (d : String) : String :=
  match v with
  | some s => if s = "" then d else s
  | none => d

/-- `isTokenExpiredInEventData`: the payload classifier. Non-objects are
rejected; otherwise `data.error || data.message || ''` is lowercased and
matched, with JS precedence, as
`(token && (expired || invalid)) || unauthorized || 401`. -/
def isTokenExpiredInEventData (data : JsValue) : Bool :=
  match data with
  | .nonObject _ => false
  | .obj error message _ =>
      let e := jsStringOr error (jsStringOr message "")
      let errorLower := jsToLowerCase e
      (strIncludes errorLower "token" &&
        (strIncludes errorLower "expired" || strIncludes errorLower "invalid"))
        || strIncludes errorLower "unauthorized"
        || strIncludes errorLower "401"

/-- `isTokenExpiredError`: the user is no longer authenticated. -/
def isTokenExpiredError (store : Option String) : Bool :=
  !(isAuthenticated store)

/-- The spec's heuristic, stated on the error/message string exactly as
§4.3 words it: normalize to lowercase, then classify as expiry if it
contains "token" AND ("expired" OR "invalid"), OR it contains
"unauthorized", OR it contains "401". Kept separate from
`isTokenExpiredInEventData` so the refinement claim compares the two. -/
def expiryHeuristicSpec (s : String) : Bool :=
  let l := jsToLowerCase s
  (strIncludes l "token" && (strIncludes l "expired" || strIncludes l "invalid"))
    || strIncludes l "unauthorized"
    || strIncludes l "401"

/-! ### Operations -/

/-- `disconnectJob`: if a connection exists for `jobId`, close it and
delete both registry entries; otherwise do nothing. -/
def disconnectJob (st : SSEService) (jobId : String) :
    SSEService × List Effect :=
  match mapGet st.activeConnections jobId with
  | some ch =>
      ({ st with
          activeConnections := mapDelete st.activeConnections jobId,
          eventHandlers := mapDelete st.eventHandlers jobId },
        [Effect.channelClosed ch])
  | none => (st, [])

/-- `disconnectAll`: close every connection, then clear both maps. -/
def disconnectAll (st : SSEService) : SSEService × List Effect :=
  ({ st with activeConnections := [], eventHandlers := [] },
    st.activeConnections.map (fun p => Effect.channelClosed p.2))

/-- `handleTokenExpiration` (the Expiry Coordinator): disconnect all,
clear the stored credential, show the notification, schedule the
redirect to `/`. The code has no already-handled guard. -/
def handleTokenExpiration (st : SSEService) (store : Option String) :
    SSEService × Option String × List Effect :=
  let r := disconnectAll st
  (r.1, none,
    Effect.expiryInvoked :: r.2 ++
      [Effect.credentialCleared, Effect.notificationShown,
        Effect.redirectScheduled "/"])

/-- `connectToJob`: fail (throw, after reporting through `onError` if
present) when unauthenticated; otherwise tear down any existing
connection for `jobId`, open a fresh channel and register it together
with `handlers`. Returns the channel id on success and the thrown
message on failure. -/
def connectToJob (st : SSEService) (store : Option String) (jobId : String)
    (handlers : Handlers) :
    SSEService × List Effect × Except String Nat :=
  if isAuthenticated store then
    let r := disconnectJob st jobId
    let ch := r.1.nextChannelId
    ({ r.1 with
        activeConnections := mapSet r.1.activeConnections jobId ch,
        eventHandlers := mapSet r.1.eventHandlers jobId handlers,
        nextChannelId := ch + 1 },
      r.2 ++ [Effect.channelOpened ch jobId],
      Except.ok ch)
  else
    (st,
      (if handlers.onError then
        [Effect.onErrorCalled (ErrorPayload.connectionFailed jobId
          "User not authenticated. Please login first.")]
      else []),
      Except.error "User not authenticated. Please login first.")

/-- `isConnected`: `activeConnections.has(jobId)`. -/
def isConnected (st : SSEService) (jobId : String) : Bool :=
  (mapGet st.activeConnections jobId).isSome

/-- `getActiveJobs`: the keys of `activeConnections`. -/
def getActiveJobs (st : SSEService) : List String :=
  keysOf st.activeConnections

/-- The named server events an `EventSource` can deliver, plus the
transport-level `onerror` carrying the connection's `readyState`. -/
inductive SSEEvent where
  | connected (data : JsValue)
  | progress (data : JsValue)
  | complete (data : JsValue)
  | appError (data : JsValue)
  | transportError (readyState : Nat)
deriving DecidableEq, Repr

/-- Delivery of one event to the listeners `connectToJob` installed on
channel `ch`, whose closures captured `jobId` and `handlers`. A closed
`EventSource` dispatches nothing; the code closes a channel exactly when
it removes it from `activeConnections`, so `ch` is live iff the registry
still maps `jobId` to `ch`. The source's nested
`if (readyState === CLOSED) { if (isTokenExpiredError()) ... }` is
flattened to the conjunction of the two tests, which falls through to the
same `onError` code on either failed test, as the source does. -/
def dispatchEvent (st : SSEService) (store : Option String) (ch : Nat)
    (jobId : String) (handlers : Handlers) (ev : SSEEvent) :
    SSEService × Option String × List Effect :=
  if mapGet st.activeConnections jobId = some ch then
    match ev with
    | .connected data =>
        (st, store,
          if handlers.onConnect then [Effect.onConnectCalled jobId data]
          else [])
    | .progress data =>
        (st, store,
          if handlers.onProgress then [Effect.onProgressCalled jobId data]
          else [])
    | .complete data =>
        let effs :=
          if handlers.onComplete then [Effect.onCompleteCalled jobId data]
          else []
        let r := disconnectJob st jobId
        (r.1, store, effs ++ r.2)
    | .appError data =>
        if isTokenExpiredInEventData data then
          handleTokenExpiration st store
        else
          let effs :=
            if handlers.onError then
              [Effect.onErrorCalled (ErrorPayload.eventData data)]
            else []
          let r := disconnectJob st jobId
          (r.1, store, effs ++ r.2)
    | .transportError readyState =>
        if readyState = EventSource.CLOSED && isTokenExpiredError store then
          handleTokenExpiration st store
        else
          let effs :=
            if handlers.onError then
              [Effect.onErrorCalled (ErrorPayload.connectionError jobId
                "Connection lost or failed" readyState)]
            else []
          let r := disconnectJob st jobId
          (r.1, store, effs ++ r.2)
  else (st, store, [])

/-- Delivery of a sequence of events to the same channel/listener set,
threading the service state, the credential store and the trace. -/
def dispatchEvents (st : SSEService) (store : Option String) (ch : Nat)
    (jobId : String) (handlers : Handlers) :
    List SSEEvent → SSEService × Option String × List Effect
  | [] => (st, store, [])
  | ev :: evs =>
      let r := dispatchEvent st store ch jobId handlers ev
      let r2 := dispatchEvents r.1 r.2.1 ch jobId handlers evs
      (r2.1, r2.2.1, r.2.2 ++ r2.2.2)

/-! ### Concrete values used by witnesses and counterexamples -/

/-- A handler object with all four callbacks present. -/
def allHandlers : Handlers :=
  { onConnect := true, onProgress := true, onComplete := true, onError := true }

/-- A state with one tracked job `job-1` on channel `0`. -/
def stOneJob : SSEService :=
  { activeConnections := [("job-1", 0)],
    eventHandlers := [("job-1", allHandlers)],
    nextChannelId := 1 }

/-- An application error payload whose message is
`Unauthorized: token expired`. -/
def expiredPayload : JsValue :=
  JsValue.obj none (some "Unauthorized: token expired") ""

/-- The implicit registry invariant: `activeConnections` and
`eventHandlers` hold exactly the same keys, in the same order. -/
def sameKeys (st : SSEService) : Prop :=
  keysOf st.activeConnections = keysOf st.eventHandlers

/-! ### Map lemmas -/

theorem mapGet_mapSet_self {α : Type} (m : List (String × α)) (k : String)
    (v : α) : mapGet (mapSet m k v) k = some v := by
  induction m with
  | nil => simp [mapSet, mapGet]
  | cons p rest ih =>
      by_cases h : p.1 = k <;> simp [mapSet, mapGet, h, ih]

theorem mapGet_mapDelete_self {α : Type} (m : List (String × α))
    (k : String) : mapGet (mapDelete m k) k = none := by
  induction m with
  | nil => simp [mapDelete, mapGet]
  | cons p rest ih =>
      by_cases h : p.1 = k <;> simp [mapDelete, mapGet, h, ih]

theorem countKey_mapSet_of_get_none {α : Type} (m : List (String × α))
    (k : String) (v : α) (h : mapGet m k = none) :
    countKey (mapSet m k v) k = 1 := by
  induction m with
  | nil => simp [mapSet, countKey]
  | cons p rest ih =>
      by_cases hp : p.1 = k
      · simp [mapGet, hp] at h
      · simp [mapGet, hp] at h
        simp [mapSet, countKey, hp, ih h]

theorem keysOf_mapDelete_congr {α β : Type} (k : String) :
    ∀ (m1 : List (String × α)) (m2 : List (String × β)),
      keysOf m1 = keysOf m2 →
      keysOf (mapDelete m1 k) = keysOf (mapDelete m2 k)
  | [], [], _ => rfl
  | [], q :: t2, h => by simp [keysOf] at h
  | p :: t1, [], h => by simp [keysOf] at h
  | p :: t1, q :: t2, h => by
      simp only [keysOf, List.map_cons, List.cons.injEq] at h
      by_cases hk : p.1 = k
      · simp [mapDelete, hk, h.1 ▸ hk,
          keysOf_mapDelete_congr k t1 t2 h.2]
      · have hq : ¬ q.1 = k := fun hc => hk (h.1 ▸ hc)
        simp [mapDelete, hk, hq, keysOf, h.1]
        exact keysOf_mapDelete_congr k t1 t2 h.2

theorem keysOf_mapSet_congr {α β : Type} (k : String) (v : α) (w : β) :
    ∀ (m1 : List (String × α)) (m2 : List (String × β)),
      keysOf m1 = keysOf m2 →
      keysOf (mapSet m1 k v) = keysOf (mapSet m2 k w)
  | [], [], _ => rfl
  | [], q :: t2, h => by simp [keysOf] at h
  | p :: t1, [], h => by simp [keysOf] at h
  | p :: t1, q :: t2, h => by
      simp only [keysOf, List.map_cons, List.cons.injEq] at h
      by_cases hk : p.1 = k
      · simp [mapSet, hk, h.1 ▸ hk, keysOf, h.2]
      · have hq : ¬ q.1 = k := fun hc => hk (h.1 ▸ hc)
        simp [mapSet, hk, hq, keysOf, h.1]
        exact keysOf_mapSet_congr k v w t1 t2 h.2

theorem mapGet_isSome_congr {α β : Type} (k : String) :
    ∀ (m1 : List (String × α)) (m2 : List (String × β)),
      keysOf m1 = keysOf m2 →
      (mapGet m1 k).isSome = (mapGet m2 k).isSome
  | [], [], _ => rfl
  | [], q :: t2, h => by simp [keysOf] at h
  | p :: t1, [], h => by simp [keysOf] at h
  | p :: t1, q :: t2, h => by
      simp only [keysOf, List.map_cons, List.cons.injEq] at h
      by_cases hk : p.1 = k
      · simp [mapGet, hk, h.1 ▸ hk]
      · have hq : ¬ q.1 = k := fun hc => hk (h.1 ▸ hc)
        simp [mapGet, hk, hq, mapGet_isSome_congr k t1 t2 h.2]

/-! ### Operation lemmas -/

theorem disconnectJob_get_none (st : SSEService) (j : String) :
    mapGet (disconnectJob st j).1.activeConnections j = none := by
  unfold disconnectJob
  cases h : mapGet st.activeConnections j with
  | none => simpa using h
  | some ch => simp [mapGet_mapDelete_self]

theorem disconnectJob_nextChannelId (st : SSEService) (j : String) :
    (disconnectJob st j).1.nextChannelId = st.nextChannelId := by
  unfold disconnectJob
  cases h : mapGet st.activeConnections j <;> simp

theorem handleTokenExpiration_effects (st : SSEService)
    (store : Option String) :
    (∀ p, Effect.onErrorCalled p ∉ (handleTokenExpiration st store).2.2) ∧
    (handleTokenExpiration st store).2.2.count Effect.expiryInvoked = 1 ∧
    (handleTokenExpiration st store).1.activeConnections = [] ∧
    (handleTokenExpiration st store).1.eventHandlers = [] := by
  refine ⟨?_, ?_, rfl, rfl⟩
  · intro p
    simp [handleTokenExpiration, disconnectAll, List.mem_append,
      List.mem_map]
  · simp [handleTokenExpiration, disconnectAll, List.count_cons,
      List.count_append]
    rw [List.count_eq_zero]
    simp [List.mem_map]

theorem disconnectJob_of_get (st : SSEService) (j : String) (ch : Nat)
    (h : mapGet st.activeConnections j = some ch) :
    disconnectJob st j =
      ({ st with
          activeConnections := mapDelete st.activeConnections j,
          eventHandlers := mapDelete st.eventHandlers j },
        [Effect.channelClosed ch]) := by
  simp [disconnectJob, h]

theorem connectToJob_auth (st : SSEService) (store : Option String)
    (j : String) (hs : Handlers) (hauth : isAuthenticated store = true) :
    connectToJob st store j hs =
      ({ activeConnections :=
            mapSet (disconnectJob st j).1.activeConnections j
              st.nextChannelId,
          eventHandlers :=
            mapSet (disconnectJob st j).1.eventHandlers j hs,
          nextChannelId := st.nextChannelId + 1 },
        (disconnectJob st j).2 ++
          [Effect.channelOpened st.nextChannelId j],
        Except.ok st.nextChannelId) := by
  simp [connectToJob, hauth, disconnectJob_nextChannelId]

theorem connectToJob_retrack (st : SSEService) (store : Option String)
    (j : String) (hs : Handlers) (ch : Nat)
    (hauth : isAuthenticated store = true)
    (hch : mapGet st.activeConnections j = some ch) :
    connectToJob st store j hs =
      ({ activeConnections :=
            mapSet (mapDelete st.activeConnections j) j st.nextChannelId,
          eventHandlers :=
            mapSet (mapDelete st.eventHandlers j) j hs,
          nextChannelId := st.nextChannelId + 1 },
        [Effect.channelClosed ch,
          Effect.channelOpened st.nextChannelId j],
        Except.ok st.nextChannelId) := by
  rw [connectToJob_auth st store j hs hauth, disconnectJob_of_get st j ch hch]
  rfl

theorem sameKeys_disconnectJob (st : SSEService) (j : String)
    (h : sameKeys st) : sameKeys (disconnectJob st j).1 := by
  unfold disconnectJob
  cases hg : mapGet st.activeConnections j with
  | none => simpa using h
  | some ch => exact keysOf_mapDelete_congr j _ _ h

theorem sameKeys_disconnectAll (st : SSEService) :
    sameKeys (disconnectAll st).1 := rfl

theorem sameKeys_handleTokenExpiration (st : SSEService)
    (store : Option String) :
    sameKeys (handleTokenExpiration st store).1 := rfl

theorem sameKeys_connectToJob (st : SSEService) (store : Option String)
    (j : String) (hs : Handlers) (h : sameKeys st) :
    sameKeys (connectToJob st store j hs).1 := by
  by_cases hauth : isAuthenticated store = true
  · rw [connectToJob_auth st store j hs hauth]
    exact keysOf_mapSet_congr j _ _ _ _ (sameKeys_disconnectJob st j h)
  · simpa [connectToJob, hauth] using h

theorem sameKeys_dispatchEvent (st : SSEService) (store : Option String)
    (ch : Nat) (j : String) (hs : Handlers) (ev : SSEEvent)
    (h : sameKeys st) : sameKeys (dispatchEvent st store ch j hs ev).1 := by
  by_cases hg : mapGet st.activeConnections j = some ch
  · cases ev with
    | connected data => simpa [dispatchEvent, hg] using h
    | progress data => simpa [dispatchEvent, hg] using h
    | complete data =>
        simpa [dispatchEvent, hg] using sameKeys_disconnectJob st j h
    | appError data =>
        by_cases he : isTokenExpiredInEventData data = true
        · simpa [dispatchEvent, hg, he] using
            sameKeys_handleTokenExpiration st store
        · simpa [dispatchEvent, hg, he] using
            sameKeys_disconnectJob st j h
    | transportError rs =>
        by_cases hc :
            (decide (rs = EventSource.CLOSED) && isTokenExpiredError store)
              = true
        · simpa [dispatchEvent, hg, hc] using
            sameKeys_handleTokenExpiration st store
        · simpa [dispatchEvent, hg, hc] using
            sameKeys_disconnectJob st j h
  · simpa [dispatchEvent, hg] using h

/-! ### Claim theorems -/

/-- C1: for every `jobId`, at most one tracking entry (one open channel)
exists after two successive `track` (`connectToJob`) calls: the second
call leaves exactly one registry entry for `jobId`, bound to the second
channel, and its trace closes the first call's channel before it opens
the second one. -/
theorem connectToJob_twice_single_channel (st : SSEService)
    (store : Option String) (j : String) (h1 h2 : Handlers)
    (hauth : isAuthenticated store = true) :
    ∃ ch1 ch2,
      (connectToJob st store j h1).2.2 = Except.ok ch1 ∧
      (connectToJob (connectToJob st store j h1).1 store j h2).2.2 =
        Except.ok ch2 ∧
      countKey (connectToJob (connectToJob st store j h1).1 store j
        h2).1.activeConnections j = 1 ∧
      mapGet (connectToJob (connectToJob st store j h1).1 store j
        h2).1.activeConnections j = some ch2 ∧
      (connectToJob (connectToJob st store j h1).1 store j h2).2.1 =
        [Effect.channelClosed ch1, Effect.channelOpened ch2 j] := by
  have hget : mapGet (connectToJob st store j h1).1.activeConnections j =
      some st.nextChannelId := by
    rw [connectToJob_auth st store j h1 hauth]
    exact mapGet_mapSet_self _ _ _
  have hnext : (connectToJob st store j h1).1.nextChannelId =
      st.nextChannelId + 1 := by
    rw [connectToJob_auth st store j h1 hauth]
  have e2 := connectToJob_retrack (connectToJob st store j h1).1 store j h2
    st.nextChannelId hauth hget
  rw [hnext] at e2
  refine ⟨st.nextChannelId, st.nextChannelId + 1, ?_, ?_, ?_, ?_, ?_⟩
  · rw [connectToJob_auth st store j h1 hauth]
  · rw [e2]
  · rw [e2]
    exact countKey_mapSet_of_get_none _ _ _ (mapGet_mapDelete_self _ _)
  · rw [e2]
    exact mapGet_mapSet_self _ _ _
  · rw [e2]

/-- C1 witness: the two-call property at a concrete state. -/
theorem connectToJob_twice_single_channel_witness :
    countKey (connectToJob (connectToJob SSEService.init (some "tok")
      "job-1" allHandlers).1 (some "tok") "job-1"
      allHandlers).1.activeConnections "job-1" = 1 := by
  obtain ⟨ch1, ch2, -, -, e3, -, -⟩ :=
    connectToJob_twice_single_channel SSEService.init (some "tok") "job-1"
      allHandlers allHandlers rfl
  exact e3

/-- C2: an application `error` event whose payload matches the expiry
classifier does not invoke `onError`, invokes the Expiry Coordinator
exactly once, and leaves both registries empty. -/
theorem appError_expiry_global_teardown (st : SSEService)
    (store : Option String) (ch : Nat) (j : String) (hs : Handlers)
    (data : JsValue)
    (htr : mapGet st.activeConnections j = some ch)
    (hexp : isTokenExpiredInEventData data = true) :
    (∀ p, Effect.onErrorCalled p ∉
      (dispatchEvent st store ch j hs (SSEEvent.appError data)).2.2) ∧
    (dispatchEvent st store ch j hs
      (SSEEvent.appError data)).2.2.count Effect.expiryInvoked = 1 ∧
    (dispatchEvent st store ch j hs
      (SSEEvent.appError data)).1.activeConnections = [] ∧
    (dispatchEvent st store ch j hs
      (SSEEvent.appError data)).1.eventHandlers = [] := by
  have hd : dispatchEvent st store ch j hs (SSEEvent.appError data) =
      handleTokenExpiration st store := by
    simp [dispatchEvent, htr, hexp]
  rw [hd]
  exact handleTokenExpiration_effects st store

/-- C2 witness: the payload with message `Unauthorized: token expired`
on a tracked job. -/
theorem appError_expiry_global_teardown_witness :
    Effect.onErrorCalled (ErrorPayload.eventData expiredPayload) ∉
      (dispatchEvent stOneJob (some "tok") 0 "job-1" allHandlers
        (SSEEvent.appError expiredPayload)).2.2 ∧
    (dispatchEvent stOneJob (some "tok") 0 "job-1" allHandlers
      (SSEEvent.appError expiredPayload)).2.2.count
        Effect.expiryInvoked = 1 :=
  ⟨(appError_expiry_global_teardown stOneJob (some "tok") 0 "job-1"
      allHandlers expiredPayload (by decide) (by decide)).1 _,
    (appError_expiry_global_teardown stOneJob (some "tok") 0 "job-1"
      allHandlers expiredPayload (by decide) (by decide)).2.1⟩

/-- C3 counterexample: a transport failure on a tracked job with the
credential store empty but `readyState = CONNECTING` does not invoke the
Expiry Coordinator and does invoke `onError`, contradicting the claim
that every such failure is routed to the coordinator. -/
theorem transportError_connecting_onError_cex :
    (dispatchEvent stOneJob none 0 "job-1" allHandlers
      (SSEEvent.transportError EventSource.CONNECTING)).2.2.count
        Effect.expiryInvoked = 0 ∧
    Effect.onErrorCalled (ErrorPayload.connectionError "job-1"
      "Connection lost or failed" EventSource.CONNECTING) ∈
      (dispatchEvent stOneJob none 0 "job-1" allHandlers
        (SSEEvent.transportError EventSource.CONNECTING)).2.2 := by
  decide

/-- C3 amended: for a transport failure whose `readyState` is `CLOSED`
on a tracked job while the credential store is empty, the Expiry
Coordinator is invoked exactly once, `onError` is not invoked, and the
registry ends empty. -/
theorem transportError_closed_unauthenticated_expiry (st : SSEService)
    (ch : Nat) (j : String) (hs : Handlers)
    (htr : mapGet st.activeConnections j = some ch) :
    (∀ p, Effect.onErrorCalled p ∉
      (dispatchEvent st none ch j hs
        (SSEEvent.transportError EventSource.CLOSED)).2.2) ∧
    (dispatchEvent st none ch j hs
      (SSEEvent.transportError EventSource.CLOSED)).2.2.count
        Effect.expiryInvoked = 1 ∧
    (dispatchEvent st none ch j hs
      (SSEEvent.transportError EventSource.CLOSED)).1.activeConnections
      = [] := by
  have hd : dispatchEvent st none ch j hs
      (SSEEvent.transportError EventSource.CLOSED) =
      handleTokenExpiration st none := by
    simp [dispatchEvent, htr, isTokenExpiredError, isAuthenticated,
      getAuthToken]
  rw [hd]
  exact ⟨(handleTokenExpiration_effects st none).1,
    (handleTokenExpiration_effects st none).2.1,
    (handleTokenExpiration_effects st none).2.2.1⟩

/-- C3 amended witness: a closed-state transport failure on a concrete
tracked job with no credential. -/
theorem transportError_closed_unauthenticated_expiry_witness :
    Effect.onErrorCalled (ErrorPayload.connectionError "job-1"
      "Connection lost or failed" EventSource.CLOSED) ∉
      (dispatchEvent stOneJob none 0 "job-1" allHandlers
        (SSEEvent.transportError EventSource.CLOSED)).2.2 ∧
    (dispatchEvent stOneJob none 0 "job-1" allHandlers
      (SSEEvent.transportError EventSource.CLOSED)).2.2.count
        Effect.expiryInvoked = 1 :=
  ⟨(transportError_closed_unauthenticated_expiry stOneJob 0 "job-1"
      allHandlers (by decide)).1 _,
    (transportError_closed_unauthenticated_expiry stOneJob 0 "job-1"
      allHandlers (by decide)).2.1⟩

/-- C4 counterexample: invoking `handleTokenExpiration` a second time
after the credential has already been cleared again shows the
notification and again schedules the redirect, so the second invocation
is not a no-op. -/
theorem handleTokenExpiration_repeat_cex :
    Effect.notificationShown ∈
      (handleTokenExpiration
        (handleTokenExpiration stOneJob (some "tok")).1
        (handleTokenExpiration stOneJob (some "tok")).2.1).2.2 ∧
    Effect.redirectScheduled "/" ∈
      (handleTokenExpiration
        (handleTokenExpiration stOneJob (some "tok")).1
        (handleTokenExpiration stOneJob (some "tok")).2.1).2.2 := by
  decide

/-- C4 amended: a second invocation of the Expiry Coordinator after the
first does not throw, leaves the state unchanged (registry still empty,
credential still cleared) and closes no channels, but it does show the
notification and schedule the redirect again. -/
theorem handleTokenExpiration_second_invocation (st : SSEService)
    (store : Option String) :
    (handleTokenExpiration (handleTokenExpiration st store).1
      (handleTokenExpiration st store).2.1).1 =
      (handleTokenExpiration st store).1 ∧
    (handleTokenExpiration (handleTokenExpiration st store).1
      (handleTokenExpiration st store).2.1).2.1 = none ∧
    (handleTokenExpiration (handleTokenExpiration st store).1
      (handleTokenExpiration st store).2.1).2.2 =
      [Effect.expiryInvoked, Effect.credentialCleared,
        Effect.notificationShown, Effect.redirectScheduled "/"] := by
  refine ⟨?_, rfl, ?_⟩ <;> simp [handleTokenExpiration, disconnectAll]

/-- C5: the expiry classifier, applied to a payload carrying the string
in its `error` or its `message` field, returns `true` exactly when the
spec's formula does: the lowercased string contains `token` and
(`expired` or `invalid`), or contains `unauthorized`, or contains
`401`. -/
theorem isTokenExpiredInEventData_matches_spec (s r : String) :
    isTokenExpiredInEventData (JsValue.obj (some s) none r) =
      expiryHeuristicSpec s ∧
    isTokenExpiredInEventData (JsValue.obj none (some s) r) =
      expiryHeuristicSpec s := by
  constructor <;>
    · simp only [isTokenExpiredInEventData, expiryHeuristicSpec,
        jsStringOr]
      by_cases hs : s = "" <;> simp [hs]

/-- C6: with no credential available, `connectToJob` fails with the
authentication error (the code's `AuthenticationRequired`) before any
channel is opened: the state is unchanged, the trace opens no channel,
and tracking status of every job is what it was before. -/
theorem connectToJob_unauthenticated_noop (st : SSEService) (j : String)
    (hs : Handlers) :
    (connectToJob st none j hs).1 = st ∧
    (connectToJob st none j hs).2.2 =
      Except.error "User not authenticated. Please login first." ∧
    (∀ c j2, Effect.channelOpened c j2 ∉ (connectToJob st none j hs).2.1) ∧
    (∀ j2, isConnected (connectToJob st none j hs).1 j2 =
      isConnected st j2) := by
  refine ⟨rfl, rfl, ?_, fun j2 => rfl⟩
  intro c j2
  by_cases he : hs.onError = true <;>
    simp [connectToJob, isAuthenticated, getAuthToken, he]

/-- C7: a `complete` event on a tracked job invokes `onComplete` exactly
once with the event's payload, then closes the channel and removes the
job from the registry; a second simulated `complete` on the now-closed
channel does nothing. -/
theorem complete_event_terminal (st : SSEService) (store : Option String)
    (ch : Nat) (j : String) (hs : Handlers) (data data2 : JsValue)
    (htr : mapGet st.activeConnections j = some ch)
    (hc : hs.onComplete = true) :
    (dispatchEvent st store ch j hs (SSEEvent.complete data)).2.2 =
      [Effect.onCompleteCalled j data, Effect.channelClosed ch] ∧
    isConnected
      (dispatchEvent st store ch j hs (SSEEvent.complete data)).1 j
      = false ∧
    dispatchEvent
      (dispatchEvent st store ch j hs (SSEEvent.complete data)).1
      (dispatchEvent st store ch j hs (SSEEvent.complete data)).2.1
      ch j hs (SSEEvent.complete data2) =
      ((dispatchEvent st store ch j hs (SSEEvent.complete data)).1,
        (dispatchEvent st store ch j hs (SSEEvent.complete data)).2.1,
        []) := by
  have hd : dispatchEvent st store ch j hs (SSEEvent.complete data) =
      ({ st with
          activeConnections := mapDelete st.activeConnections j,
          eventHandlers := mapDelete st.eventHandlers j },
        store,
        [Effect.onCompleteCalled j data, Effect.channelClosed ch]) := by
    simp [dispatchEvent, htr, hc, disconnectJob_of_get st j ch htr]
  rw [hd]
  refine ⟨rfl, ?_, ?_⟩
  · simp [isConnected, mapGet_mapDelete_self]
  · simp [dispatchEvent, mapGet_mapDelete_self]

/-- C7 witness: the scenario of §8, `complete` on tracked `job-1`. -/
theorem complete_event_terminal_witness :
    (dispatchEvent stOneJob (some "tok") 0 "job-1" allHandlers
      (SSEEvent.complete (JsValue.obj none none "result response hello"))).2.2
      = [Effect.onCompleteCalled "job-1"
          (JsValue.obj none none "result response hello"),
        Effect.channelClosed 0] ∧
    isConnected (dispatchEvent stOneJob (some "tok") 0 "job-1" allHandlers
      (SSEEvent.complete
        (JsValue.obj none none "result response hello"))).1 "job-1"
      = false :=
  ⟨(complete_event_terminal stOneJob (some "tok") 0 "job-1" allHandlers
      (JsValue.obj none none "result response hello")
      (JsValue.obj none none "result response hello")
      (by decide) rfl).1,
    (complete_event_terminal stOneJob (some "tok") 0 "job-1" allHandlers
      (JsValue.obj none none "result response hello")
      (JsValue.obj none none "result response hello")
      (by decide) rfl).2.1⟩

/-- C8: `progress` events are non-terminal: any number of them on a
tracked job each invoke `onProgress` with the event's payload and leave
the service state, the credential store and the tracking status of the
job unchanged. -/
theorem progress_events_nonterminal (st : SSEService)
    (store : Option String) (ch : Nat) (j : String) (hs : Handlers)
    (data : JsValue) (n : Nat)
    (htr : mapGet st.activeConnections j = some ch)
    (hp : hs.onProgress = true) :
    dispatchEvents st store ch j hs
      (List.replicate n (SSEEvent.progress data)) =
      (st, store, List.replicate n (Effect.onProgressCalled j data)) ∧
    isConnected st j = true := by
  have hstep : dispatchEvent st store ch j hs (SSEEvent.progress data) =
      (st, store, [Effect.onProgressCalled j data]) := by
    simp [dispatchEvent, htr, hp]
  refine ⟨?_, by simp [isConnected, htr]⟩
  induction n with
  | zero => rfl
  | succ k ih =>
      rw [List.replicate_succ, List.replicate_succ]
      simp [dispatchEvents, hstep, ih]

/-- C8 witness: two `progress` events with the same payload on tracked
`job-1` give two `onProgress` invocations and leave the job tracked. -/
theorem progress_events_nonterminal_witness :
    dispatchEvents stOneJob (some "tok") 0 "job-1" allHandlers
      (List.replicate 2
        (SSEEvent.progress (JsValue.obj none none "progress 42"))) =
      (stOneJob, some "tok",
        List.replicate 2 (Effect.onProgressCalled "job-1"
          (JsValue.obj none none "progress 42"))) ∧
    isConnected stOneJob "job-1" = true :=
  progress_events_nonterminal stOneJob (some "tok") 0 "job-1" allHandlers
    (JsValue.obj none none "progress 42") 2 (by decide) rfl

/-- C9 (implicit): when `connectToJob` fails before a channel is opened
(the unauthenticated case) and `onError` is present, the failure is
reported through `onError` with the `connection_failed` payload built in
the catch block, and the same error still propagates to the caller. -/
theorem connectToJob_failure_reports_onError (st : SSEService)
    (j : String) (hs : Handlers) (he : hs.onError = true) :
    connectToJob st none j hs =
      (st,
        [Effect.onErrorCalled (ErrorPayload.connectionFailed j
          "User not authenticated. Please login first.")],
        Except.error "User not authenticated. Please login first.") := by
  simp [connectToJob, isAuthenticated, getAuthToken, he]

/-- C9 witness: the unauthenticated failure for `job-3` with an
`onError` handler present. -/
theorem connectToJob_failure_reports_onError_witness :
    connectToJob SSEService.init none "job-3" allHandlers =
      (SSEService.init,
        [Effect.onErrorCalled (ErrorPayload.connectionFailed "job-3"
          "User not authenticated. Please login first.")],
        Except.error "User not authenticated. Please login first.") :=
  connectToJob_failure_reports_onError SSEService.init "job-3"
    allHandlers rfl

/-- C10 (implicit): the two registries always hold exactly the same key
set: it holds initially and every operation preserves it, and under it a
job has stored callbacks iff it has an active channel. -/
theorem registries_share_key_set :
    sameKeys SSEService.init ∧
    (∀ st store j hs, sameKeys st →
      sameKeys (connectToJob st store j hs).1) ∧
    (∀ st j, sameKeys st → sameKeys (disconnectJob st j).1) ∧
    (∀ st, sameKeys (disconnectAll st).1) ∧
    (∀ st store, sameKeys (handleTokenExpiration st store).1) ∧
    (∀ st store ch j hs ev, sameKeys st →
      sameKeys (dispatchEvent st store ch j hs ev).1) ∧
    (∀ st j, sameKeys st →
      (mapGet st.eventHandlers j).isSome =
        (mapGet st.activeConnections j).isSome) :=
  ⟨rfl, sameKeys_connectToJob, sameKeys_disconnectJob,
    sameKeys_disconnectAll, sameKeys_handleTokenExpiration,
    sameKeys_dispatchEvent,
    fun st j h => mapGet_isSome_congr j st.eventHandlers
      st.activeConnections h.symm⟩

/-- C10 witness: preservation through a concrete `track` call from the
initial state. -/
theorem registries_share_key_set_witness :
    sameKeys (connectToJob SSEService.init (some "tok") "job-1"
      allHandlers).1 :=
  registries_share_key_set.2.1 SSEService.init (some "tok") "job-1"
    allHandlers rfl
